import Mathlib

/-!
Verification development for the UrfuHhParser statistics engine.

The Python sources are embedded shallowly:
* machine floats are modelled as exact rationals,
* Python dicts are modelled as insertion-ordered association lists,
* code that can raise returns values in the Except monad, with PyErr
  naming the Python exception class that would be raised,
* the external ciso8601 timestamp parser is modelled from the spec.
-/

/-- Python exception kinds that the embedded code can raise. -/
inductive PyErr where
  | valueError
  | keyError
  | attributeError
  | zeroDivisionError
  | typeError
deriving DecidableEq, Inhabited

def exceptDecEq {ε α : Type} [DecidableEq ε] [DecidableEq α] :
    (a b : Except ε α) → Decidable (a = b)
  | .error x, .error y => decidable_of_iff (x = y) (by simp)
  | .error _, .ok _ => isFalse (by simp)
  | .ok _, .error _ => isFalse (by simp)
  | .ok x, .ok y => decidable_of_iff (x = y) (by simp)

instance {ε α : Type} [DecidableEq ε] [DecidableEq α] : DecidableEq (Except ε α) :=
  exceptDecEq

/-- Insertion-ordered association list, modelling a Python dict. -/
abbrev Dict (α β : Type) := List (α × β)

/-- Python dict read d[k], first (and only) binding of the key. -/
def dictLookup {α β : Type} [BEq α] (d : Dict α β) (k : α) : Option β :=
  (d.find? (fun p => p.1 == k)).map (fun p => p.2)

/-- Python dict write d[k] = v: replace the value in place when the key
exists (keys are unique in a dict, so the first binding is the only one),
append at the end otherwise (insertion order is preserved). -/
def dictSet {α β : Type} [BEq α] : Dict α β → α → β → Dict α β
  | [], k, v => [(k, v)]
  | p :: rest, k, v => if p.1 == k then (p.1, v) :: rest else p :: dictSet rest k v

/-- Python dict.update(other): set every binding of other, in order. -/
def dictUpdateAll {α β : Type} [BEq α] (d other : Dict α β) : Dict α β :=
  other.foldl (fun acc p => dictSet acc p.1 p.2) d

/-- The Python substring test (needle in hay) on character lists:
listIsPre n l decides whether n is an initial segment of l. -/
def listIsPre : List Char → List Char → Bool
  | [], _ => true
  | _ :: _, [] => false
  | a :: as, b :: bs => a == b && listIsPre as bs

/-- listContainsSub n l decides whether n occurs contiguously inside l. -/
def listContainsSub (n : List Char) : List Char → Bool
  | [] => listIsPre n []
  | b :: bs => listIsPre n (b :: bs) || listContainsSub n bs

/-- Python expression (needle in hay) for strings: contiguous substring test. -/
def pyIn (needle hay : String) : Bool :=
  listContainsSub needle.data hay.data

/-- Python int(x) on a float value: truncation toward zero, modelled on
the exact rational. -/
def pyInt (q : ℚ) : ℤ :=
  (if q < 0 then -1 else 1) * ((q.num.natAbs / q.den : ℕ) : ℤ)

/-- Floor of a rational as an integer, via flooring integer division. -/
def ratFloorZ (q : ℚ) : ℤ :=
  Int.fdiv q.num q.den

/-- Round-half-to-even to the nearest integer, the tie rule of Python round. -/
def roundHalfEvenZ (x : ℚ) : ℤ :=
  let f := ratFloorZ x
  let r := x - (f : ℚ)
  if r < 1/2 then f
  else if (1:ℚ)/2 < r then f + 1
  else if f % 2 = 0 then f else f + 1

/-- Python round(x, 4), modelled as exact decimal rounding of the rational. -/
def pyRound4 (q : ℚ) : ℚ :=
  ((roundHalfEvenZ (q * 10000) : ℚ)) / 10000

/-- Insert into a list sorted by the given order, before the first element
that does not precede it; keeps earlier-inserted equals after the new one. -/
def stableInsert {α : Type} (le : α → α → Bool) (x : α) : List α → List α
  | [] => [x]
  | y :: ys => if le x y then x :: y :: ys else y :: stableInsert le x ys

/-- Stable sort (the guarantee of Python sorted): elements with equal keys
keep their original relative order. -/
def stableSort {α : Type} (le : α → α → Bool) (l : List α) : List α :=
  l.foldr (stableInsert le) []

/-- Python sorted(items, key = fun item => -item[1]) on (key, value) pairs:
stable descending order on the second component. -/
def sortByValueDesc {α β : Type} [LinearOrder β] (l : List (α × β)) : List (α × β) :=
  stableSort (fun a b => decide (b.2 ≤ a.2)) l

/-- AvgCounter from vacancies_staticstics.py: running sum, running length,
and the mean in the value attribute. The value attribute is absent (none)
exactly when the counter was initialised with no values and never updated. -/
structure AvgCounter where
  sum : ℚ
  len : ℕ
  value : Option ℚ
deriving DecidableEq

/-- AvgCounter(*values): sums the given values; the value attribute is set
only when at least one value was given. -/
def AvgCounter.ofValues (values : List ℚ) : AvgCounter :=
  { sum := values.sum
    len := values.length
    value := if values.length ≠ 0 then some (values.sum / (values.length : ℚ)) else none }

/-- AvgCounter.add: add one value and refresh the mean. -/
def AvgCounter.add (c : AvgCounter) (v : ℚ) : AvgCounter :=
  { sum := c.sum + v
    len := c.len + 1
    value := some ((c.sum + v) / ((c.len : ℚ) + 1)) }

/-- AvgCounter.unite_many: a fresh counter holding the summed sums and
summed lengths. The source divides by the united length unconditionally,
so a united length of zero raises ZeroDivisionError, modelled as none. -/
def AvgCounter.uniteMany (counters : List AvgCounter) : Option AvgCounter :=
  let s := (counters.map (fun c => c.sum)).sum
  let l := (counters.map (fun c => c.len)).sum
  if l = 0 then none
  else some { sum := s, len := l, value := some (s / (l : ℚ)) }

/-- AvgCounter.concat: unite_many on the two operands. -/
def AvgCounter.concat (c other : AvgCounter) : Option AvgCounter :=
  AvgCounter.uniteMany [c, other]

/-- The counter built from a sequence by sequential add calls starting from
an empty AvgCounter(). -/
def buildCounter (values : List ℚ) : AvgCounter :=
  values.foldl AvgCounter.add (AvgCounter.ofValues [])

/-- Well-formedness of a counter: the invariant maintained by ofValues and
add, relating the value attribute to sum and length. -/
def AvgCounter.Wf (c : AvgCounter) : Prop :=
  (c.len = 0 → c.sum = 0 ∧ c.value = none) ∧
  (c.len ≠ 0 → c.value = some (c.sum / (c.len : ℚ)))

instance (c : AvgCounter) : Decidable c.Wf := by
  unfold AvgCounter.Wf; infer_instance

/-- A timezone-aware datetime value as produced by the timestamp parser. -/
structure PyDatetime where
  year : ℤ
  month : ℕ
  day : ℕ
  hour : ℕ
  minute : ℕ
  second : ℕ
  offsetMinutes : ℤ
deriving DecidableEq

/-- Numeric value of a decimal digit character. -/
def digitVal (c : Char) : ℕ := c.toNat - 48

/-- Two-digit decimal number from two digit characters. -/
def twoDigits (a b : Char) : ℕ := 10 * digitVal a + digitVal b

/-- Modelled from the spec: the external ciso8601 timestamp parser consumed
by datetime_parser.py, which is not part of this repository. Per the spec it
must accept ISO-8601-with-numeric-offset strings such as
2022-07-05T20:45:58+0300; the format layout follows the datetime format
documented in the repository docstrings. Any other shape raises ValueError. -/
def cisoParse (s : String) : Except PyErr PyDatetime :=
  match s.data with
  | [y1, y2, y3, y4, c1, m1, m2, c2, d1, d2, c3, h1, h2, c4, i1, i2, c5, s1, s2, sg, o1, o2, o3, o4] =>
    if c1 = '-' && c2 = '-' && c3 = 'T' && c4 = ':' && c5 = ':' &&
       (sg = '+' || sg = '-') &&
       [y1, y2, y3, y4, m1, m2, d1, d2, h1, h2, i1, i2, s1, s2, o1, o2, o3, o4].all Char.isDigit
    then
      let offset : ℤ := (60 * twoDigits o1 o2 + twoDigits o3 o4 : ℕ)
      Except.ok
        { year := (1000 * digitVal y1 + 100 * digitVal y2 + 10 * digitVal y3 + digitVal y4 : ℕ)
          month := twoDigits m1 m2
          day := twoDigits d1 d2
          hour := twoDigits h1 h2
          minute := twoDigits i1 i2
          second := twoDigits s1 s2
          offsetMinutes := if sg = '-' then -offset else offset }
    else Except.error PyErr.valueError
  | _ => Except.error PyErr.valueError

/-- parse_datetime from datetime_parser.py: it calls the ciso8601 parser
(so a malformed string still raises ValueError) but the function body has
no return statement, so on success it returns None. -/
def parse_datetime (s : String) : Except PyErr (Option PyDatetime) := do
  let _ ← cisoParse s
  pure none

/-- Python attribute access x.year on a value that may be None: None has no
year attribute, so AttributeError is raised. -/
def pyYear (x : Option PyDatetime) : Except PyErr ℤ :=
  match x with
  | none => Except.error PyErr.attributeError
  | some dt => Except.ok dt.year

/-- The fixed currency-to-ruble table from models.py (Salary._exchange_rates). -/
def exchangeRates : Dict String ℚ :=
  [("AZN", 35.68), ("BYR", 23.91), ("EUR", 59.90), ("GEL", 21.74), ("KGS", 0.76),
   ("KZT", 0.13), ("RUR", 1), ("UAH", 1.64), ("USD", 60.66), ("UZS", 0.0055)]

/-- Salary from models.py; the unused-by-statistics gross flag is kept
because parsing it can raise. -/
structure Salary where
  from_amount : ℤ
  to_amount : ℤ
  currency : String
  gross : Option Bool
deriving DecidableEq

/-- Salary.avg_ruble_amount: midpoint of the fork converted by the fixed
table; a currency outside the table would raise KeyError. -/
def Salary.avgRubleAmount (s : Salary) : Except PyErr ℚ :=
  match dictLookup exchangeRates s.currency with
  | none => Except.error PyErr.keyError
  | some r => Except.ok (((s.from_amount : ℚ) + (s.to_amount : ℚ)) / 2 * r)

/-- All-digit character list to its decimal value (empty list gives 0). -/
def parseDigits (cs : List Char) : Option ℕ :=
  if cs.all Char.isDigit then some (cs.foldl (fun n c => 10 * n + digitVal c) 0) else none

/-- Python float(s) on the plain decimal numerals appearing in the CSV data:
optional sign, integer digits, optional dot and fraction digits, at least
one digit overall. Other strings raise ValueError, modelled as none. -/
def pyParseFloat (s : String) : Option ℚ :=
  let signAndBody : ℚ × List Char :=
    match s.data with
    | '-' :: rest => (-1, rest)
    | '+' :: rest => (1, rest)
    | l => (1, l)
  match (List.splitOn '.' signAndBody.2) with
  | [ip] =>
    if ip.isEmpty then none
    else (parseDigits ip).map (fun n => signAndBody.1 * (n : ℚ))
  | [ip, fp] =>
    if ip.isEmpty && fp.isEmpty then none
    else do
      let ipN ← parseDigits ip
      let fpN ← parseDigits fp
      pure (signAndBody.1 * ((ipN : ℚ) + (fpN : ℚ) / ((10 : ℚ) ^ fp.length)))
  | _ => none

/-- Python int(float(s)): parse then truncate toward zero. -/
def pyFloatToInt (s : String) : Option ℤ :=
  (pyParseFloat s).map pyInt

/-- to_bool from models.py: None passes through, the strings True and False
convert, anything else raises ValueError. -/
def toBoolOpt (s : Option String) : Except PyErr (Option Bool) :=
  match s with
  | none => Except.ok none
  | some v =>
    if v == "True" then Except.ok (some true)
    else if v == "False" then Except.ok (some false)
    else Except.error PyErr.valueError

/-- Salary.parse_from_dict: validates the currency against the fixed table,
then parses both bounds with int(float(.)) and the optional gross flag. -/
def Salary.parseFromDict (rd : Dict String String) : Except PyErr Salary := do
  let currency ←
    match dictLookup rd ("salary_currency") with
    | none => Except.error PyErr.keyError
    | some c => Except.ok c
  if (dictLookup exchangeRates currency).isNone then
    Except.error PyErr.valueError
  else do
    let fs ←
      match dictLookup rd ("salary_from") with
      | none => Except.error PyErr.keyError
      | some v => Except.ok v
    let fa ←
      match pyFloatToInt fs with
      | none => Except.error PyErr.valueError
      | some n => Except.ok n
    let ts ←
      match dictLookup rd ("salary_to") with
      | none => Except.error PyErr.keyError
      | some v => Except.ok v
    let ta ←
      match pyFloatToInt ts with
      | none => Except.error PyErr.valueError
      | some n => Except.ok n
    let gross ← toBoolOpt (dictLookup rd ("salary_gross"))
    Except.ok { from_amount := fa, to_amount := ta, currency := currency, gross := gross }

/-- Vacancy from models.py, restricted to the fields the statistics read;
published_at is an Option because parse_datetime returns None on success.
The purely pass-through optional string fields (description, key skills,
experience, employer) cannot raise and are omitted. -/
structure Vacancy where
  name : String
  salary : Salary
  area_name : String
  published_at : Option PyDatetime
  premium : Option Bool
deriving DecidableEq

/-- Vacancy.year: attribute access published_at.year. -/
def Vacancy.yearAttr (v : Vacancy) : Except PyErr ℤ :=
  pyYear v.published_at

/-- Vacancy.parse_from_dict: required fields raise KeyError when absent;
the salary and the premium flag parse as in the source. -/
def Vacancy.parseFromDict (rd : Dict String String) : Except PyErr Vacancy := do
  let name ←
    match dictLookup rd ("name") with
    | none => Except.error PyErr.keyError
    | some v => Except.ok v
  let salary ← Salary.parseFromDict rd
  let area ←
    match dictLookup rd ("area_name") with
    | none => Except.error PyErr.keyError
    | some v => Except.ok v
  let pubStr ←
    match dictLookup rd ("published_at") with
    | none => Except.error PyErr.keyError
    | some v => Except.ok v
  let pub ← parse_datetime pubStr
  let premium ← toBoolOpt (dictLookup rd ("premium"))
  Except.ok { name := name, salary := salary, area_name := area,
              published_at := pub, premium := premium }

/-- The mutable state of SingleProcessVacanciesStatistics. -/
structure Stats where
  salaries_by_year : Dict ℤ AvgCounter
  counts_by_year : Dict ℤ ℕ
  prof_salaries_by_year : Dict ℤ AvgCounter
  prof_counts_by_year : Dict ℤ ℕ
  salaries_by_cities : Dict String AvgCounter
  counts_by_cities : Dict String ℕ
  vacancies_count : ℕ
deriving DecidableEq

/-- The state right after construction, before any row is folded in. -/
def initStats : Stats :=
  { salaries_by_year := [], counts_by_year := [], prof_salaries_by_year := [],
    prof_counts_by_year := [], salaries_by_cities := [], counts_by_cities := [],
    vacancies_count := 0 }

/-- change_salary_and_count_stats from _update_statistics: first occurrence
of a key seeds AvgCounter(salary) and count 1, later occurrences add to the
counter and increment the count. The count lookup default is dead: the two
dicts always hold the same keys. -/
def changeSalaryAndCountStats {κ : Type} [BEq κ] (salaries : Dict κ AvgCounter)
    (counts : Dict κ ℕ) (key : κ) (salary : ℚ) : Dict κ AvgCounter × Dict κ ℕ :=
  match dictLookup salaries key with
  | none => (dictSet salaries key (AvgCounter.ofValues [salary]), dictSet counts key 1)
  | some c =>
    (dictSet salaries key (c.add salary),
     dictSet counts key ((dictLookup counts key).getD 0 + 1))

/-- _update_statistics: year stats, total count, city stats, then the
profession stats guarded by the substring test on the title. -/
def updateStatistics (profName : String) (st : Stats) (v : Vacancy) :
    Except PyErr Stats := do
  let salary ← Salary.avgRubleAmount v.salary
  let year ← pyYear v.published_at
  let yearStats := changeSalaryAndCountStats st.salaries_by_year st.counts_by_year year salary
  let cityStats := changeSalaryAndCountStats st.salaries_by_cities st.counts_by_cities v.area_name salary
  let st1 : Stats :=
    { st with salaries_by_year := yearStats.1, counts_by_year := yearStats.2,
              vacancies_count := st.vacancies_count + 1,
              salaries_by_cities := cityStats.1, counts_by_cities := cityStats.2 }
  if pyIn profName v.name = false then
    Except.ok st1
  else
    let profStats := changeSalaryAndCountStats st.prof_salaries_by_year st.prof_counts_by_year year salary
    Except.ok { st1 with prof_salaries_by_year := profStats.1, prof_counts_by_year := profStats.2 }

/-- The single-process statistics folded over an already-parsed corpus of
vacancies, in corpus order. -/
def singleStatsFold (profName : String) (vs : List Vacancy) : Except PyErr Stats :=
  vs.foldlM (updateStatistics profName) initStats

/-- int(counter.value) as used by the presentation properties. Counters
stored in the statistics dicts always carry a value (their length is at
least one); the default is dead and stands for the impossible None case. -/
def counterIntValue (c : AvgCounter) : ℤ :=
  pyInt (c.value.getD 0)

/-- Property salaries_by_year: means truncated to int, no sentinel. -/
def Stats.salariesByYearP (st : Stats) : Dict ℤ ℤ :=
  st.salaries_by_year.map (fun p => (p.1, counterIntValue p.2))

/-- Property counts_by_year: returned as stored, no sentinel. -/
def Stats.countsByYearP (st : Stats) : Dict ℤ ℕ :=
  st.counts_by_year

/-- Property prof_salaries_by_year: the substitute-for-empty sentinel maps
the current year to 0 when no title matched; otherwise means as ints. -/
def Stats.profSalariesByYearP (currentYear : ℤ) (st : Stats) : Dict ℤ ℤ :=
  if st.prof_salaries_by_year.length = 0 then [(currentYear, 0)]
  else st.prof_salaries_by_year.map (fun p => (p.1, counterIntValue p.2))

/-- Property prof_counts_by_year with the same sentinel. -/
def Stats.profCountsByYearP (currentYear : ℤ) (st : Stats) : Dict ℤ ℕ :=
  if st.prof_counts_by_year.length = 0 then [(currentYear, 0)]
  else st.prof_counts_by_year

/-- _one_percent_filter: keep the pairs whose city count reaches one percent
of the total vacancy count (inclusive comparison, division by the constant
100). The city count lookup default is dead: every yielded city is a key of
the counts dict in the source. -/
def onePercentFilter {α : Type} (vacanciesCount : ℕ) (countsByCities : Dict String ℕ)
    (items : Dict String α) : Dict String α :=
  items.filter
    (fun p => decide ((((dictLookup countsByCities p.1).getD 0 : ℕ) : ℚ) ≥ (vacanciesCount : ℚ) / 100))

/-- Property top_10_salaries_by_cities: int means, filtered by the one
percent rule, stable-sorted descending, first ten. -/
def Stats.top10SalariesByCitiesP (st : Stats) : Dict String ℤ :=
  (sortByValueDesc
    (onePercentFilter st.vacancies_count st.counts_by_cities
      (st.salaries_by_cities.map (fun p => (p.1, counterIntValue p.2))))).take 10

/-- Property top_10_cities_shares: filtered counts divided by the total and
rounded to four decimals, stable-sorted descending, first ten. -/
def Stats.top10CitiesSharesP (st : Stats) : Dict String ℚ :=
  (sortByValueDesc
    ((onePercentFilter st.vacancies_count st.counts_by_cities st.counts_by_cities).map
      (fun p => (p.1, pyRound4 ((p.2 : ℚ) / (st.vacancies_count : ℚ)))))).take 10

/-- _to_row_dict: None when the field counts differ or any field is the
empty string; otherwise the header-to-value dict. -/
def toRowDict (titleRow row : List String) : Option (Dict String String) :=
  if titleRow.length ≠ row.length then none
  else if row.any (fun f => f == "") then none
  else some ((titleRow.zip row).foldl (fun d p => dictSet d p.1 p.2) [])

/-- One data row of _init_data: rows rejected by _to_row_dict are skipped
silently, the rest are parsed into a Vacancy and folded into the state. -/
def processRow (profName : String) (titleRow : List String) (st : Stats)
    (row : List String) : Except PyErr Stats :=
  match toRowDict titleRow row with
  | none => Except.ok st
  | some rd => do
    let v ← Vacancy.parseFromDict rd
    updateStatistics profName st v

/-- _init_data over a whole table: the first row is the header, the rest are
data rows processed in order. -/
def singleStatsFromTable (profName : String) (table : List (List String)) :
    Except PyErr Stats :=
  match table with
  | [] => Except.ok initStats
  | titleRow :: rows => rows.foldlM (processRow profName titleRow) initStats

/-- The merged state of ConcurrentFuturesVacanciesStatics: year maps merged
at property level (already int-valued and sentinel-substituted per chunk),
city counters merged as raw counters. -/
structure CStats where
  salaries_by_year : Dict ℤ ℤ
  counts_by_year : Dict ℤ ℕ
  prof_salaries_by_year : Dict ℤ ℤ
  prof_counts_by_year : Dict ℤ ℕ
  avg_counters_by_cities : Dict String AvgCounter
  vacancies_count : ℕ
deriving DecidableEq

/-- The state before the first chunk result is merged. -/
def initCStats : CStats :=
  { salaries_by_year := [], counts_by_year := [], prof_salaries_by_year := [],
    prof_counts_by_year := [], avg_counters_by_cities := [], vacancies_count := 0 }

/-- The per-city loop of the futures merge: concat counters for cities seen
before, adopt new ones, and grow the total by each counter length. A concat
of two empty counters would raise ZeroDivisionError. -/
def mergeChunkCities (acc : Dict String AvgCounter × ℕ)
    (chunkCities : Dict String AvgCounter) :
    Except PyErr (Dict String AvgCounter × ℕ) :=
  chunkCities.foldlM
    (fun (p : Dict String AvgCounter × ℕ) q => do
      match dictLookup p.1 q.1 with
      | some c =>
        match AvgCounter.concat c q.2 with
        | none => Except.error PyErr.zeroDivisionError
        | some u => Except.ok (dictSet p.1 q.1 u, p.2 + q.2.len)
      | none => Except.ok (dictSet p.1 q.1 q.2, p.2 + q.2.len))
    acc

/-- Merging one chunk result into the futures state: the four year maps are
merged from the chunk PROPERTIES (int means, per-chunk sentinel included),
the city counters from the raw per-city counters. -/
def mergeChunk (currentYear : ℤ) (acc : CStats) (st : Stats) : Except PyErr CStats := do
  let cities ← mergeChunkCities (acc.avg_counters_by_cities, acc.vacancies_count)
      st.salaries_by_cities
  Except.ok
    { salaries_by_year := dictUpdateAll acc.salaries_by_year (Stats.salariesByYearP st)
      counts_by_year := dictUpdateAll acc.counts_by_year (Stats.countsByYearP st)
      prof_salaries_by_year :=
        dictUpdateAll acc.prof_salaries_by_year (Stats.profSalariesByYearP currentYear st)
      prof_counts_by_year :=
        dictUpdateAll acc.prof_counts_by_year (Stats.profCountsByYearP currentYear st)
      avg_counters_by_cities := cities.1
      vacancies_count := cities.2 }

/-- ConcurrentFuturesVacanciesStatics over already-parsed year chunks: each
chunk is aggregated by the single-process statistics and merged in chunk
order (executor.map yields results in input order). -/
def concurrentStats (profName : String) (currentYear : ℤ)
    (chunks : List (List Vacancy)) : Except PyErr CStats :=
  chunks.foldlM
    (fun acc chunk => do
      let st ← singleStatsFold profName chunk
      mergeChunk currentYear acc st)
    initCStats

/-- Futures property salaries_by_year (sentinel when the merged map is empty). -/
def CStats.salariesByYearP (currentYear : ℤ) (c : CStats) : Dict ℤ ℤ :=
  if c.salaries_by_year.length = 0 then [(currentYear, 0)] else c.salaries_by_year

/-- Futures property counts_by_year (sentinel when the merged map is empty). -/
def CStats.countsByYearP (currentYear : ℤ) (c : CStats) : Dict ℤ ℕ :=
  if c.counts_by_year.length = 0 then [(currentYear, 0)] else c.counts_by_year

/-- Futures property prof_salaries_by_year (sentinel when empty). -/
def CStats.profSalariesByYearP (currentYear : ℤ) (c : CStats) : Dict ℤ ℤ :=
  if c.prof_salaries_by_year.length = 0 then [(currentYear, 0)] else c.prof_salaries_by_year

/-- Futures property prof_counts_by_year (sentinel when empty). -/
def CStats.profCountsByYearP (currentYear : ℤ) (c : CStats) : Dict ℤ ℕ :=
  if c.prof_counts_by_year.length = 0 then [(currentYear, 0)] else c.prof_counts_by_year

/-- The acceptance filter of _init_counts_by_cities: city counts reaching
one percent of the total (inclusive). -/
def cfAcceptCounts (vacanciesCount : ℕ) (counts : Dict String ℕ) : Dict String ℕ :=
  counts.filter (fun p => decide ((p.2 : ℚ) ≥ (vacanciesCount : ℚ) / 100))

/-- _init_counts_by_cities: counter lengths, one percent filter, stable
descending sort, first ten, then counts turned into rounded shares. -/
def CStats.top10CitiesSharesP (c : CStats) : Dict String ℚ :=
  let counts := c.avg_counters_by_cities.map (fun p => (p.1, p.2.len))
  let top := (sortByValueDesc (cfAcceptCounts c.vacancies_count counts)).take 10
  top.map (fun p => (p.1, pyRound4 ((p.2 : ℚ) / (c.vacancies_count : ℚ))))

/-- _init_city_salaries: one percent filter on counter lengths, int means,
stable descending sort, first ten. -/
def CStats.top10SalariesByCitiesP (c : CStats) : Dict String ℤ :=
  let accepted := c.avg_counters_by_cities.filter
    (fun p => decide ((p.2.len : ℚ) ≥ (c.vacancies_count : ℚ) / 100))
  (sortByValueDesc (accepted.map (fun p => (p.1, counterIntValue p.2)))).take 10

/-- Filesystem effects of YearSeparated, in order of occurrence. -/
inductive YsEvent where
  | resetDir
  | createFile (year : ℤ)
deriving DecidableEq

/-- Python list.index on the header row: position of the first occurrence,
none when absent (the source turns the raised ValueError into its own). -/
def listIndexOf {α : Type} [BEq α] (a : α) : List α → Option ℕ
  | [] => none
  | b :: bs => if b == a then some 0 else (listIndexOf a bs).map (fun n => n + 1)

/-- The row loop of YearSeparated.__init__: rows with the wrong field count
are skipped; otherwise the year is read from the timestamp cell, a chunk
file is opened on the first row of a new year (header first), and the row is
appended to the chunk of its year. The timestamp parser is a parameter so
that the code path and the documented parser can both be examined. -/
def ysProcessRows (parse : String → Except PyErr (Option PyDatetime))
    (titleRow : List String) (idx : ℕ) :
    List (List String) → Dict ℤ (List (List String)) → List YsEvent →
    List YsEvent × Except PyErr (Dict ℤ (List (List String)))
  | [], chunks, evs => (evs, Except.ok chunks)
  | row :: rest, chunks, evs =>
    if row.length ≠ titleRow.length then ysProcessRows parse titleRow idx rest chunks evs
    else
      match parse (row.getD idx "") with
      | Except.error e => (evs, Except.error e)
      | Except.ok none => (evs, Except.error PyErr.attributeError)
      | Except.ok (some dt) =>
        match dictLookup chunks dt.year with
        | none =>
          ysProcessRows parse titleRow idx rest
            (chunks ++ [(dt.year, [titleRow, row])]) (evs ++ [YsEvent.createFile dt.year])
        | some content =>
          ysProcessRows parse titleRow idx rest (dictSet chunks dt.year (content ++ [row])) evs

/-- YearSeparated.__init__: the partition directory is destroyed and
recreated first; then the header is read and the timestamp column located
(a missing column raises ValueError); then the rows are partitioned. -/
def yearSeparatedWith (parse : String → Except PyErr (Option PyDatetime))
    (dtColName : String) (table : List (List String)) :
    List YsEvent × Except PyErr (Dict ℤ (List (List String))) :=
  match table with
  | [] => ([YsEvent.resetDir], Except.ok [])
  | titleRow :: rows =>
    match listIndexOf dtColName titleRow with
    | none => ([YsEvent.resetDir], Except.error PyErr.valueError)
    | some idx => ysProcessRows parse titleRow idx rows [] [YsEvent.resetDir]

/-- YearSeparated as the source has it, with parse_datetime as the parser. -/
def yearSeparated (dtColName : String) (table : List (List String)) :
    List YsEvent × Except PyErr (Dict ℤ (List (List String))) :=
  yearSeparatedWith parse_datetime dtColName table

/-- The parser the parse_datetime docstring promises: the ciso8601 result is
returned to the caller instead of being dropped. -/
def intendedParse (s : String) : Except PyErr (Option PyDatetime) :=
  (cisoParse s).map (fun dt => some dt)

/-- YearSeparated run with the documented parser behaviour. -/
def yearSeparatedIntended (dtColName : String) (table : List (List String)) :
    List YsEvent × Except PyErr (Dict ℤ (List (List String))) :=
  yearSeparatedWith intendedParse dtColName table

/-- A row of the columnar frame after reading the CSV, parsing the
timestamp column and computing the united salary column. -/
structure PdRow where
  name : String
  area_name : String
  year : ℤ
  salary : Option ℚ
deriving DecidableEq

/-- Modelled from the spec: unite_salaries is imported by
PandasVacanciesStatistics but its module content is missing from the
sources; only this caller and the close in-source analogue
_add_salary_column (salary_handler.py) remain. Following the spec (record
salary is the midpoint of the fork, converted by the injected rate provider
for non-reference currencies) and that analogue: absent bounds fall back to
the present one, a fully absent fork or an unavailable rate leaves the
salary cell absent. -/
def uniteSalariesCell (salaryFrom salaryTo : Option ℚ) (currency : String)
    (rate : Option ℚ) : Option ℚ :=
  let conv : ℚ → Option ℚ := fun amount =>
    if currency == "RUR" then some amount else rate.map (fun r => amount * r)
  match salaryFrom, salaryTo with
  | none, none => none
  | some f, none => conv f
  | none, some t => conv t
  | some f, some t => conv ((f + t) / 2)

/-- Group keys of a columnar group-by on the city column. The groups are
listed in first-occurrence order; the pandas group-by lists keys in sorted
order, and every concrete frame examined below mentions its cities in
alphabetical order, where the two agree. -/
def pdDistinctCities (df : List PdRow) : List String :=
  df.foldl (fun acc r => if acc.contains r.area_name then acc else acc ++ [r.area_name]) []

/-- Group keys of a columnar group-by on the year column, same convention. -/
def pdDistinctYears (df : List PdRow) : List ℤ :=
  df.foldl (fun acc r => if acc.contains r.year then acc else acc ++ [r.year]) []

/-- Number of rows of a given city. -/
def pdCitySize (df : List PdRow) (a : String) : ℕ :=
  (df.filter (fun r => r.area_name == a)).length

/-- PandasVacanciesStatistics top_10_cities_shares: rows of cities holding
at least one percent of all rows, grouped by city, sizes sorted descending,
divided by the total row count and truncated to ten. The source applies no
rounding here. The pandas sort is not stable; it is modelled as stable, and
the concrete frames examined below have no ties that cross the cut. -/
def pandasTop10CitiesShares (df : List PdRow) : Dict String ℚ :=
  let total := df.length
  let trueCities := (pdDistinctCities df).filter
    (fun a => decide ((pdCitySize df a : ℚ) ≥ (total : ℚ) / 100))
  let sizes := trueCities.map (fun a => (a, pdCitySize df a))
  ((sortByValueDesc sizes).map (fun p => (p.1, (p.2 : ℚ) / (total : ℚ)))).take 10

/-- The row filter of the columnar profession maps. The source uses the
pandas substring-search with the profession name as the pattern; for
patterns free of regular-expression metacharacters (all patterns the
repository uses) it is the literal substring test. -/
def pdNameContains (profName : String) (r : PdRow) : Bool :=
  pyIn profName r.name

/-- PandasVacanciesStatistics prof_counts_by_year: group sizes of the
title-filtered frame by year. The source applies no substitute-for-empty
sentinel on this map. -/
def pandasProfCountsByYear (profName : String) (df : List PdRow) : Dict ℤ ℕ :=
  let matched := df.filter (pdNameContains profName)
  (pdDistinctYears matched).map
    (fun y => (y, (matched.filter (fun r => r.year == y)).length))

/-- A first-of-january timestamp of the given year with a +0300 offset,
used by the concrete corpora below. -/
def mkDt (y : ℤ) : PyDatetime :=
  { year := y, month := 1, day := 1, hour := 0, minute := 0, second := 0,
    offsetMinutes := 180 }

/-- A ruble vacancy fixture. -/
def mkVac (nm : String) (city : String) (y : ℤ) (lo hi : ℤ) : Vacancy :=
  { name := nm
    salary := { from_amount := lo, to_amount := hi, currency := "RUR", gross := none }
    area_name := city
    published_at := some (mkDt y)
    premium := none }

/-- Corpus of the C1 and C5 counter-scenarios: one title matching the
profession in 2020, one unrelated title in 2021, distinct cities. -/
def vEng : Vacancy := mkVac ("Engineer") ("A") 2020 100 200

/-- The non-matching 2021 record of the same corpus. -/
def vCook : Vacancy := mkVac ("Cook") ("B") 2021 50 50

/-- The columnar frame corresponding to a parsed ruble vacancy, with the
salary cell computed by the modelled unite_salaries. -/
def toPdRow (v : Vacancy) : PdRow :=
  { name := v.name
    area_name := v.area_name
    year := (v.published_at.map (fun dt => dt.year)).getD 0
    salary := uniteSalariesCell (some (v.salary.from_amount : ℚ))
      (some (v.salary.to_amount : ℚ)) v.salary.currency
      (dictLookup exchangeRates v.salary.currency) }

/-- Three one-record cities, used to exhibit the share-rounding divergence:
each share is one third, which a four-decimal rounding cannot represent. -/
def corpusThirds : List Vacancy :=
  [mkVac ("Engineer") ("A") 2022 100 100,
   mkVac ("Builder") ("B") 2022 100 100,
   mkVac ("Cook") ("C") 2022 100 100]

/-- The well-formed rows of a given year, in input order: the rows the
partitioner files under that year when the timestamp parser hands the
parsed value back. -/
def ysRowsOfYear (titleRow : List String) (idx : ℕ) (y : ℤ)
    (rows : List (List String)) : List (List String) :=
  rows.filter
    (fun r =>
      r.length == titleRow.length &&
      (match cisoParse (r.getD idx "") with
       | Except.ok dt => dt.year == y
       | Except.error _ => false))

lemma dictLookup_nil {α β : Type} [BEq α] (k : α) : dictLookup ([] : Dict α β) k = none := rfl

lemma dictLookup_append {α β : Type} [BEq α] (d1 d2 : Dict α β) (k : α) :
    dictLookup (d1 ++ d2) k =
      match dictLookup d1 k with
      | some v => some v
      | none => dictLookup d2 k := by
  induction d1 with
  | nil => simp [dictLookup]
  | cons p rest ih =>
    by_cases hp : p.1 == k
    · simp [dictLookup, List.find?, hp]
    · simpa [dictLookup, List.find?, hp] using ih

lemma dictLookup_dictSet_self {α β : Type} [BEq α] [LawfulBEq α] (d : Dict α β) (k : α) (v : β) :
    dictLookup (dictSet d k v) k = some v := by
  induction d with
  | nil => simp [dictSet, dictLookup, List.find?]
  | cons p rest ih =>
    cases hp : (p.1 == k)
    · simpa [dictSet, dictLookup, List.find?, hp] using ih
    · simp [dictSet, dictLookup, List.find?, hp]

lemma dictLookup_dictSet_ne {α β : Type} [BEq α] [LawfulBEq α] (d : Dict α β) (k k' : α)
    (v : β) (h : k' ≠ k) :
    dictLookup (dictSet d k v) k' = dictLookup d k' := by
  have hkk : (k == k') = false := by
    simp only [beq_eq_false_iff_ne, ne_eq]
    exact fun hc => h hc.symm
  induction d with
  | nil => simp [dictSet, dictLookup, List.find?, hkk]
  | cons p rest ih =>
    cases hp : (p.1 == k)
    · cases hq : (p.1 == k')
      · simpa [dictSet, dictLookup, List.find?, hp, hq] using ih
      · simp [dictSet, dictLookup, List.find?, hp, hq]
    · have hpk : p.1 = k := by simpa using hp
      have hq : (p.1 == k') = false := by rw [hpk]; exact hkk
      simp [dictSet, dictLookup, List.find?, hp, hq]

lemma dictLookup_dictSet_isSome {α β : Type} [BEq α] [LawfulBEq α] (d : Dict α β)
    (k k' : α) (v : β) :
    (dictLookup (dictSet d k v) k').isSome ↔ k' = k ∨ (dictLookup d k').isSome := by
  by_cases h : k' = k
  · subst h; simp [dictLookup_dictSet_self]
  · simp [dictLookup_dictSet_ne d k k' v h, h]

lemma dictSet_nil {α β : Type} [BEq α] (k : α) (v : β) :
    dictSet ([] : Dict α β) k v = [(k, v)] := rfl

lemma dictSet_single_self {α β : Type} [BEq α] [LawfulBEq α] (k : α) (v w : β) :
    dictSet [(k, v)] k w = [(k, w)] := by
  simp [dictSet, List.find?]

lemma dictUpdateAll_single {α β : Type} [BEq α] (d : Dict α β) (k : α) (v : β) :
    dictUpdateAll d [(k, v)] = dictSet d k v := rfl

lemma foldl_add_eq (s : List ℚ) : ∀ c : AvgCounter,
    s.foldl AvgCounter.add c =
      { sum := c.sum + s.sum, len := c.len + s.length,
        value := if s.length = 0 then c.value
                 else some ((c.sum + s.sum) / ((c.len : ℚ) + (s.length : ℚ))) } := by
  induction s with
  | nil => intro c; cases c; simp
  | cons a t ih =>
    intro c
    rw [List.foldl_cons, ih]
    rcases Nat.eq_zero_or_pos t.length with ht | ht
    · have ht' : t = [] := List.length_eq_zero.mp ht
      subst ht'
      simp [AvgCounter.add]
    · have ht' : t.length ≠ 0 := Nat.pos_iff_ne_zero.mp ht
      have hne : ¬ (t.length + 1 = 0) := by omega
      simp only [AvgCounter.add, List.sum_cons, List.length_cons, if_neg ht', if_neg hne,
        AvgCounter.mk.injEq]
      refine ⟨by ring, by omega, ?_⟩
      congr 1
      push_cast
      ring

lemma buildCounter_eq (s : List ℚ) :
    buildCounter s =
      { sum := s.sum, len := s.length,
        value := if s.length = 0 then none else some (s.sum / (s.length : ℚ)) } := by
  unfold buildCounter AvgCounter.ofValues
  rw [foldl_add_eq]
  simp

/-- C2 counterexample: for the empty sequence and its split into one empty
sub-sequence, unite_many on the sub-counters raises ZeroDivisionError
(modelled none), so no merged counter exists to agree with the counter built
by sequential add calls; the claim quantifies over every finite sequence and
so fails here. -/
theorem avgCounter_empty_merge_raises :
    (([[]] : List (List ℚ)).flatten = ([] : List ℚ)) ∧
    AvgCounter.uniteMany (([[]] : List (List ℚ)).map buildCounter) = none :=
  ⟨rfl, rfl⟩

/-- C2 (amended to nonempty sequences): for every nonempty sequence and
every split of it, unite_many over the sub-sequence counters equals the
counter built by sequential add calls (same sum, count and value); for any
counter family of nonzero total count, unite_many returns the summed sums
and counts; and unite_many is invariant under permutation of its operands,
so merging is commutative, associative and order-independent. -/
theorem avgCounter_split_merge_agrees :
    (∀ (s : List ℚ) (split : List (List ℚ)), s ≠ [] → split.flatten = s →
      AvgCounter.uniteMany (split.map buildCounter) = some (buildCounter s)) ∧
    (∀ counters : List AvgCounter,
      (counters.map (fun c => c.len)).sum ≠ 0 →
      ∃ u, AvgCounter.uniteMany counters = some u ∧
        u.sum = (counters.map (fun c => c.sum)).sum ∧
        u.len = (counters.map (fun c => c.len)).sum) ∧
    (∀ cs cs' : List AvgCounter, cs.Perm cs' →
      AvgCounter.uniteMany cs = AvgCounter.uniteMany cs') := by
  refine ⟨?_, ?_, ?_⟩
  · intro s split hne hflat
    have hsum : ((split.map buildCounter).map (fun c => c.sum)).sum = s.sum := by
      rw [List.map_map]
      have h1 : ((fun c : AvgCounter => c.sum) ∘ buildCounter) = fun l : List ℚ => l.sum := by
        funext l; simp [buildCounter_eq]
      rw [h1, ← hflat, List.sum_flatten]
    have hlen : ((split.map buildCounter).map (fun c => c.len)).sum = s.length := by
      rw [List.map_map]
      have h1 : ((fun c : AvgCounter => c.len) ∘ buildCounter) = fun l : List ℚ => l.length := by
        funext l; simp [buildCounter_eq]
      rw [h1, ← hflat, List.length_flatten]
    have hlen0 : s.length ≠ 0 := fun h => hne (List.length_eq_zero.mp h)
    simp only [AvgCounter.uniteMany, hsum, hlen, if_neg hlen0, buildCounter_eq]
  · intro counters h
    simp only [AvgCounter.uniteMany, if_neg h]
    exact ⟨_, rfl, rfl, rfl⟩
  · intro cs cs' hperm
    have h1 : (cs.map (fun c => c.sum)).sum = (cs'.map (fun c => c.sum)).sum :=
      (hperm.map _).sum_eq
    have h2 : (cs.map (fun c => c.len)).sum = (cs'.map (fun c => c.len)).sum :=
      (hperm.map _).sum_eq
    simp only [AvgCounter.uniteMany, h1, h2]

/-- C2 witness: the amended statement applied to the sequence 1, 2 split
into two singletons, and permutation invariance on swapping the counters. -/
theorem avgCounter_split_merge_agrees_witness :
    (AvgCounter.uniteMany ([[1], [2]].map buildCounter) = some (buildCounter [1, 2])) ∧
    (∃ u, AvgCounter.uniteMany [buildCounter [1], buildCounter [2]] = some u ∧
      u.sum = ([buildCounter [1], buildCounter [2]].map (fun c => c.sum)).sum ∧
      u.len = ([buildCounter [1], buildCounter [2]].map (fun c => c.len)).sum) ∧
    AvgCounter.uniteMany [buildCounter [1], buildCounter [2]] =
      AvgCounter.uniteMany [buildCounter [2], buildCounter [1]] :=
  ⟨avgCounter_split_merge_agrees.1 [1, 2] [[1], [2]] (by decide) rfl,
   avgCounter_split_merge_agrees.2.1 _ (by decide),
   avgCounter_split_merge_agrees.2.2 _ _ (List.Perm.swap _ _ _)⟩

/-- C3 counterexample: merging two empty accumulators divides by zero
(ZeroDivisionError, modelled none), so a merge in which both operands are
empty is not safe; the claim as stated covers such a pair. -/
theorem avgCounter_concat_empty_empty_raises :
    AvgCounter.concat (AvgCounter.ofValues []) (AvgCounter.ofValues []) = none := rfl

/-- C3 (amended to pairs with at least one non-empty operand): merging two
well-formed accumulators of which at least one is non-empty never divides by
zero, and merging a non-empty accumulator with an empty one (either order)
returns an accumulator equal in value, sum and count to the non-empty
operand. -/
theorem avgCounter_concat_with_empty_safe :
    ∀ a b : AvgCounter, a.Wf → b.Wf →
      ((a.len ≠ 0 ∨ b.len ≠ 0) → (AvgCounter.concat a b).isSome) ∧
      (a.len ≠ 0 → b.len = 0 →
        ∃ u, AvgCounter.concat a b = some u ∧
          u.sum = a.sum ∧ u.len = a.len ∧ u.value = a.value) ∧
      (a.len = 0 → b.len ≠ 0 →
        ∃ u, AvgCounter.concat a b = some u ∧
          u.sum = b.sum ∧ u.len = b.len ∧ u.value = b.value) := by
  intro a b hwa hwb
  refine ⟨?_, ?_, ?_⟩
  · intro h
    have hl : ¬ (a.len + (b.len + 0) = 0) := by omega
    simp only [AvgCounter.concat, AvgCounter.uniteMany, List.map_cons, List.map_nil,
      List.sum_cons, List.sum_nil, if_neg hl, Option.isSome_some]
  · intro ha hb
    have hbs : b.sum = 0 := (hwb.1 hb).1
    have hval : a.value = some (a.sum / (a.len : ℚ)) := hwa.2 ha
    have hcc : AvgCounter.concat a b =
        some { sum := a.sum, len := a.len, value := some (a.sum / (a.len : ℚ)) } := by
      simp [AvgCounter.concat, AvgCounter.uniteMany, hb, hbs, ha]
    exact ⟨_, hcc, rfl, rfl, hval.symm⟩
  · intro ha hb
    have has : a.sum = 0 := (hwa.1 ha).1
    have hval : b.value = some (b.sum / (b.len : ℚ)) := hwb.2 hb
    have hcc : AvgCounter.concat a b =
        some { sum := b.sum, len := b.len, value := some (b.sum / (b.len : ℚ)) } := by
      simp [AvgCounter.concat, AvgCounter.uniteMany, ha, has, hb]
    exact ⟨_, hcc, rfl, rfl, hval.symm⟩

/-- C3 witness: the amended statement applied to the singleton counter of 5
merged with the empty counter. -/
theorem avgCounter_concat_with_empty_safe_witness :
    ∃ u, AvgCounter.concat (AvgCounter.ofValues [5]) (AvgCounter.ofValues []) = some u ∧
      u.sum = (AvgCounter.ofValues [5]).sum ∧
      u.len = (AvgCounter.ofValues [5]).len ∧
      u.value = (AvgCounter.ofValues [5]).value :=
  (avgCounter_concat_with_empty_safe (AvgCounter.ofValues [5]) (AvgCounter.ofValues [])
    (by constructor <;> simp [AvgCounter.ofValues])
    (by constructor <;> simp [AvgCounter.ofValues])).2.1
    (by simp [AvgCounter.ofValues]) (by simp [AvgCounter.ofValues])

/-- C4: the one percent filters of both top-10 views retain exactly the
pairs whose city count is at least total/100 (inclusive comparison); with a
zero total every city is retained and no division error occurs (the
division is by the constant 100); with total 1000 a count of 10 passes and
a count of 9 does not. -/
theorem onePercentFilter_exact :
    (∀ (α : Type) (total : ℕ) (counts : Dict String ℕ) (items : Dict String α)
        (p : String × α),
      p ∈ onePercentFilter total counts items ↔
        p ∈ items ∧ (((dictLookup counts p.1).getD 0 : ℕ) : ℚ) ≥ (total : ℚ) / 100) ∧
    (∀ (total : ℕ) (counts : Dict String ℕ) (p : String × ℕ),
      p ∈ cfAcceptCounts total counts ↔
        p ∈ counts ∧ (p.2 : ℚ) ≥ (total : ℚ) / 100) ∧
    (∀ (α : Type) (counts : Dict String ℕ) (items : Dict String α),
      onePercentFilter 0 counts items = items) ∧
    (onePercentFilter 1000 [("X", 10), ("Y", 9)] [("X", 1), ("Y", 2)] = [("X", 1)]) := by
  refine ⟨?_, ?_, ?_, ?_⟩
  · intro α total counts items p
    simp [onePercentFilter, List.mem_filter]
  · intro total counts p
    simp [cfAcceptCounts, List.mem_filter]
  · intro α counts items
    unfold onePercentFilter
    apply List.filter_eq_self.mpr
    intro p hp
    rw [decide_eq_true_eq]
    norm_num
  · unfold onePercentFilter
    norm_num [List.filter, dictLookup, List.find?,
      show (("X" : String) == "X") = true by decide,
      show (("X" : String) == "Y") = false by decide,
      show (("Y" : String) == "Y") = true by decide]

/-- C10: a data row whose field count matches the header but holding at
least one empty-string field is excluded from all statistics silently: the
state is returned unchanged and no error is raised. -/
theorem emptyFieldRow_skipped :
    ∀ (profName : String) (titleRow : List String) (st : Stats) (row : List String),
      row.length = titleRow.length → (∃ f ∈ row, f = "") →
      processRow profName titleRow st row = Except.ok st := by
  intro prof titleRow st row hlen hex
  obtain ⟨f, hf, hfe⟩ := hex
  have hany : row.any (fun f => f == "") = true := by
    rw [List.any_eq_true]
    exact ⟨f, hf, by simp [hfe]⟩
  have hdict : toRowDict titleRow row = none := by
    unfold toRowDict
    rw [if_neg (show ¬ (titleRow.length ≠ row.length) by omega), if_pos hany]
  simp [processRow, hdict]

/-- C10 witness: a two-column row with an empty second field leaves the
fresh state untouched. -/
theorem emptyFieldRow_skipped_witness :
    processRow ("p") ["a", "b"] initStats ["x", ""] = Except.ok initStats :=
  emptyFieldRow_skipped "p" ["a", "b"] initStats ["x", ""] rfl ⟨"", by decide, rfl⟩

/-- C8: the documented parser accepts the ISO-8601 string and its year is
2022, but parse_datetime drops the parsed value (its body has no return
statement) and produces None, on which the year attribute access of
Vacancy.year and of the partitioner raises AttributeError. -/
theorem parse_datetime_drops_result :
    cisoParse ("2022-07-05T20:45:58+0300") =
      Except.ok { year := 2022, month := 7, day := 5, hour := 20, minute := 45,
                  second := 58, offsetMinutes := 180 } ∧
    parse_datetime ("2022-07-05T20:45:58+0300") = Except.ok none ∧
    pyYear none = Except.error PyErr.attributeError :=
  ⟨by decide, by decide, rfl⟩

lemma listIndexOf_eq_none_of_not_mem {α : Type} [BEq α] [LawfulBEq α] (a : α) (l : List α)
    (h : a ∉ l) : listIndexOf a l = none := by
  induction l with
  | nil => rfl
  | cons b bs ih =>
    have hb : (b == a) = false := by
      simp only [beq_eq_false_iff_ne, ne_eq]
      intro hc; exact h (hc ▸ List.mem_cons_self b bs)
    simp only [listIndexOf, hb, Bool.false_eq_true, if_false]
    rw [ih (fun hm => h (List.mem_cons_of_mem b hm))]
    rfl

lemma ysProcessRows_events (parse : String → Except PyErr (Option PyDatetime))
    (titleRow : List String) (idx : ℕ) :
    ∀ (rows : List (List String)) (chunks : Dict ℤ (List (List String))) (evs : List YsEvent),
      ∃ extra, (ysProcessRows parse titleRow idx rows chunks evs).1 = evs ++ extra := by
  intro rows
  induction rows with
  | nil => intro chunks evs; exact ⟨[], by simp [ysProcessRows]⟩
  | cons row rest ih =>
    intro chunks evs
    by_cases hlen : row.length = titleRow.length
    · cases hp : parse ((row[idx]?).getD "") with
      | error e => exact ⟨[], by simp [ysProcessRows, hlen, hp]⟩
      | ok opt =>
        cases opt with
        | none => exact ⟨[], by simp [ysProcessRows, hlen, hp]⟩
        | some dt =>
          cases hlk : dictLookup chunks dt.year with
          | none =>
            obtain ⟨ex, hex⟩ :=
              ih (chunks ++ [(dt.year, [titleRow, row])]) (evs ++ [YsEvent.createFile dt.year])
            exact ⟨YsEvent.createFile dt.year :: ex, by
              simp [ysProcessRows, hlen, hp, hlk, hex]⟩
          | some content =>
            obtain ⟨ex, hex⟩ := ih (dictSet chunks dt.year (content ++ [row])) evs
            exact ⟨ex, by simp [ysProcessRows, hlen, hp, hlk, hex]⟩
    · obtain ⟨ex, hex⟩ := ih chunks evs
      exact ⟨ex, by simp [ysProcessRows, hlen, hex]⟩

/-- C7: when the named timestamp column is absent from the header,
YearSeparated raises ValueError having performed no filesystem action other
than destroying and recreating the partition directory (no chunk file is
created, so there is no partial output); and on every run, whatever the
input, the first filesystem action is that destroy-and-recreate, which is
what makes reruns idempotent. -/
theorem yearSeparated_missing_column_fails :
    (∀ (col : String) (titleRow : List String) (rows : List (List String)),
      col ∉ titleRow →
      yearSeparated col (titleRow :: rows) =
        ([YsEvent.resetDir], Except.error PyErr.valueError)) ∧
    (∀ (col : String) (table : List (List String)),
      (yearSeparated col table).1.head? = some YsEvent.resetDir) := by
  constructor
  · intro col titleRow rows h
    simp [yearSeparated, yearSeparatedWith, listIndexOf_eq_none_of_not_mem col titleRow h]
  · intro col table
    cases table with
    | nil => rfl
    | cons titleRow rows =>
      cases hidx : listIndexOf col titleRow with
      | none => simp [yearSeparated, yearSeparatedWith, hidx]
      | some idx =>
        obtain ⟨ex, hex⟩ :=
          ysProcessRows_events parse_datetime titleRow idx rows [] [YsEvent.resetDir]
        simp [yearSeparated, yearSeparatedWith, hidx, hex]

/-- C7 witness: a table whose header lacks the published_at column fails
with ValueError and only the directory reset happened. -/
theorem yearSeparated_missing_column_fails_witness :
    yearSeparated ("published_at") [["other"], ["x"]] =
      ([YsEvent.resetDir], Except.error PyErr.valueError) :=
  yearSeparated_missing_column_fails.1 "published_at" ["other"] [["x"]] (by decide)

lemma ysIntended_go (titleRow : List String) (idx : ℕ) :
    ∀ (rows : List (List String)) (chunks : Dict ℤ (List (List String)))
      (evs : List YsEvent),
      (∀ row ∈ rows, row.length = titleRow.length →
        ∃ dt, cisoParse ((row[idx]?).getD "") = Except.ok dt) →
      ∃ final, (ysProcessRows intendedParse titleRow idx rows chunks evs).2 = Except.ok final ∧
        ∀ y : ℤ, dictLookup final y =
          match dictLookup chunks y with
          | some content => some (content ++ ysRowsOfYear titleRow idx y rows)
          | none =>
            if (ysRowsOfYear titleRow idx y rows).isEmpty then none
            else some (titleRow :: ysRowsOfYear titleRow idx y rows) := by
  intro rows
  induction rows with
  | nil =>
    intro chunks evs _
    refine ⟨chunks, by simp [ysProcessRows], ?_⟩
    intro y
    cases hc : dictLookup chunks y <;> simp [ysRowsOfYear, hc]
  | cons row rest ih =>
    intro chunks evs hok
    have hokrest : ∀ r ∈ rest, r.length = titleRow.length →
        ∃ dt, cisoParse ((r[idx]?).getD "") = Except.ok dt :=
      fun r hr => hok r (List.mem_cons_of_mem row hr)
    by_cases hlen : row.length = titleRow.length
    · obtain ⟨dt, hdt⟩ := hok row (List.mem_cons_self row rest) hlen
      have hip : intendedParse ((row[idx]?).getD "") = Except.ok (some dt) := by
        simp [intendedParse, hdt, Except.map]
      cases hlk : dictLookup chunks dt.year with
      | none =>
        obtain ⟨final, hfin, hchar⟩ :=
          ih (chunks ++ [(dt.year, [titleRow, row])]) (evs ++ [YsEvent.createFile dt.year])
            hokrest
        refine ⟨final, by simp [ysProcessRows, hlen, hip, hlk, hfin], ?_⟩
        intro y
        rw [hchar y]
        by_cases hy : y = dt.year
        · subst hy
          have h1 : dictLookup (chunks ++ [(dt.year, [titleRow, row])]) dt.year =
              some [titleRow, row] := by
            rw [dictLookup_append, hlk]
            simp [dictLookup, List.find?]
          have hfilt : ysRowsOfYear titleRow idx dt.year (row :: rest) =
              row :: ysRowsOfYear titleRow idx dt.year rest := by
            simp [ysRowsOfYear, List.filter, hlen, hdt, beq_self_eq_true]
          rw [h1, hlk, hfilt]
          simp
        · have hne : (dt.year == y) = false := by
            simp only [beq_eq_false_iff_ne, ne_eq]
            exact fun hc => hy hc.symm
          have h1 : dictLookup (chunks ++ [(dt.year, [titleRow, row])]) y =
              dictLookup chunks y := by
            rw [dictLookup_append]
            cases hcy : dictLookup chunks y <;> simp [dictLookup, List.find?, hne]
          have hfilt : ysRowsOfYear titleRow idx y (row :: rest) =
              ysRowsOfYear titleRow idx y rest := by
            simp [ysRowsOfYear, List.filter, hlen, hdt, hne]
          rw [h1, hfilt]
      | some content =>
        obtain ⟨final, hfin, hchar⟩ :=
          ih (dictSet chunks dt.year (content ++ [row])) evs hokrest
        refine ⟨final, by simp [ysProcessRows, hlen, hip, hlk, hfin], ?_⟩
        intro y
        rw [hchar y]
        by_cases hy : y = dt.year
        · subst hy
          have h1 : dictLookup (dictSet chunks dt.year (content ++ [row])) dt.year =
              some (content ++ [row]) := dictLookup_dictSet_self chunks dt.year (content ++ [row])
          have hfilt : ysRowsOfYear titleRow idx dt.year (row :: rest) =
              row :: ysRowsOfYear titleRow idx dt.year rest := by
            simp [ysRowsOfYear, List.filter, hlen, hdt, beq_self_eq_true]
          rw [h1, hlk, hfilt]
          simp
        · have hne : (dt.year == y) = false := by
            simp only [beq_eq_false_iff_ne, ne_eq]
            exact fun hc => hy hc.symm
          have h1 : dictLookup (dictSet chunks dt.year (content ++ [row])) y =
              dictLookup chunks y := dictLookup_dictSet_ne chunks dt.year y _ hy
          have hfilt : ysRowsOfYear titleRow idx y (row :: rest) =
              ysRowsOfYear titleRow idx y rest := by
            simp [ysRowsOfYear, List.filter, hlen, hdt, hne]
          rw [h1, hfilt]
    · obtain ⟨final, hfin, hchar⟩ := ih chunks evs hokrest
      refine ⟨final, by simp [ysProcessRows, hlen, hfin], ?_⟩
      intro y
      rw [hchar y]
      have hfilt : ysRowsOfYear titleRow idx y (row :: rest) =
          ysRowsOfYear titleRow idx y rest := by
        have hb : (row.length == titleRow.length) = false := by simp [hlen]
        simp [ysRowsOfYear, List.filter, hb]
      rw [hfilt]

/-- C6: as written the partitioner crashes instead of partitioning: on a
well-formed one-row table the year extraction calls parse_datetime, which
returns None, and the year attribute access raises AttributeError before
any chunk is produced (first conjunct). The partition contract itself is
correct code-side up to that parser slip: with the documented parser value
handed back, every well-formed row lands in exactly the chunk of its year
(header first, input order preserved) and rows with a field-count mismatch
land in no chunk (second conjunct). -/
theorem yearSeparated_partition :
    (yearSeparated ("published_at") [["published_at"], ["2022-07-05T20:45:58+0300"]] =
      ([YsEvent.resetDir], Except.error PyErr.attributeError)) ∧
    (∀ (col : String) (titleRow : List String) (rows : List (List String)) (idx : ℕ),
      listIndexOf col titleRow = some idx →
      (∀ row ∈ rows, row.length = titleRow.length →
        ∃ dt, cisoParse ((row[idx]?).getD "") = Except.ok dt) →
      ∃ chunks, (yearSeparatedIntended col (titleRow :: rows)).2 = Except.ok chunks ∧
        ∀ y : ℤ, dictLookup chunks y =
          if (ysRowsOfYear titleRow idx y rows).isEmpty then none
          else some (titleRow :: ysRowsOfYear titleRow idx y rows)) := by
  constructor
  · decide
  · intro col titleRow rows idx hidx hok
    obtain ⟨final, hfin, hchar⟩ := ysIntended_go titleRow idx rows [] [YsEvent.resetDir] hok
    refine ⟨final, ?_, ?_⟩
    · simp [yearSeparatedIntended, yearSeparatedWith, hidx, hfin]
    · intro y
      simpa using hchar y

/-- C6 witness: the partition contract applied to a one-row table over the
documented parser produces a 2022 chunk holding the header and the row. -/
theorem yearSeparated_partition_witness :
    ∃ chunks,
      (yearSeparatedIntended ("published_at")
        [["published_at"], ["2022-07-05T20:45:58+0300"]]).2 = Except.ok chunks := by
  obtain ⟨chunks, h1, h2⟩ := yearSeparated_partition.2 "published_at" ["published_at"]
    [["2022-07-05T20:45:58+0300"]] 0 (by decide)
    (by
      intro row hr hl
      rcases List.mem_singleton.mp hr with rfl
      exact ⟨{ year := 2022, month := 7, day := 5, hour := 20, minute := 45,
               second := 58, offsetMinutes := 180 }, by decide⟩)
  exact ⟨chunks, h1⟩

lemma except_bind_ok {ε α β : Type} (a : α) (f : α → Except ε β) :
    (Except.ok a : Except ε α) >>= f = f a := rfl

lemma except_bind_error {ε α β : Type} (e : ε) (f : α → Except ε β) :
    (Except.error e : Except ε α) >>= f = Except.error e := rfl

lemma foldlM_except_nil {α σ ε : Type} (f : σ → α → Except ε σ) (b : σ) :
    ([] : List α).foldlM f b = Except.ok b := rfl

lemma foldlM_except_cons {α σ ε : Type} (f : σ → α → Except ε σ) (b : σ) (a : α)
    (l : List α) :
    (a :: l).foldlM f b =
      match f b a with
      | Except.error e => Except.error e
      | Except.ok b2 => l.foldlM f b2 := by
  cases h : f b a <;> rw [List.foldlM_cons, h] <;> rfl

lemma updateStatistics_eq (prof : String) (st : Stats) (v : Vacancy) :
    updateStatistics prof st v =
      match dictLookup exchangeRates v.salary.currency, v.published_at with
      | none, _ => Except.error PyErr.keyError
      | some _, none => Except.error PyErr.attributeError
      | some r, some dt =>
        let salary := ((v.salary.from_amount : ℚ) + (v.salary.to_amount : ℚ)) / 2 * r
        let yearStats :=
          changeSalaryAndCountStats st.salaries_by_year st.counts_by_year dt.year salary
        let cityStats :=
          changeSalaryAndCountStats st.salaries_by_cities st.counts_by_cities v.area_name salary
        let st1 : Stats :=
          { st with salaries_by_year := yearStats.1, counts_by_year := yearStats.2,
                    vacancies_count := st.vacancies_count + 1,
                    salaries_by_cities := cityStats.1, counts_by_cities := cityStats.2 }
        if pyIn prof v.name = false then Except.ok st1
        else
          let profStats :=
            changeSalaryAndCountStats st.prof_salaries_by_year st.prof_counts_by_year
              dt.year salary
          Except.ok { st1 with prof_salaries_by_year := profStats.1,
                               prof_counts_by_year := profStats.2 } := by
  unfold updateStatistics Salary.avgRubleAmount pyYear
  cases dictLookup exchangeRates v.salary.currency <;> cases v.published_at <;> rfl

lemma c1_single_eval : singleStatsFold ("Engineer") [vEng, vCook] =
    Except.ok
      { salaries_by_year := [(2020, ⟨150, 1, some 150⟩), (2021, ⟨50, 1, some 50⟩)]
        counts_by_year := [(2020, 1), (2021, 1)]
        prof_salaries_by_year := [(2020, ⟨150, 1, some 150⟩)]
        prof_counts_by_year := [(2020, 1)]
        salaries_by_cities := [("A", ⟨150, 1, some 150⟩), ("B", ⟨50, 1, some 50⟩)]
        counts_by_cities := [("A", 1), ("B", 1)]
        vacancies_count := 2 } := by
  simp only [singleStatsFold, foldlM_except_cons, foldlM_except_nil, updateStatistics_eq,
    vEng, vCook, mkVac, mkDt, initStats, changeSalaryAndCountStats, dictLookup, dictSet,
    List.find?, exchangeRates, AvgCounter.ofValues, AvgCounter.add,
    show (("AZN" : String) == "RUR") = false by decide,
    show (("BYR" : String) == "RUR") = false by decide,
    show (("EUR" : String) == "RUR") = false by decide,
    show (("GEL" : String) == "RUR") = false by decide,
    show (("KGS" : String) == "RUR") = false by decide,
    show (("KZT" : String) == "RUR") = false by decide,
    show (("RUR" : String) == "RUR") = true by decide,
    show ((2020 : ℤ) == 2021) = false by decide,
    show ((2020 : ℤ) == 2020) = true by decide,
    show (("A" : String) == "B") = false by decide,
    show (("A" : String) == "A") = true by decide,
    show ¬ (("AZN" : String) = "RUR") by decide,
    show ¬ (("BYR" : String) = "RUR") by decide,
    show ¬ (("EUR" : String) = "RUR") by decide,
    show ¬ (("GEL" : String) = "RUR") by decide,
    show ¬ (("KGS" : String) = "RUR") by decide,
    show ¬ (("KZT" : String) = "RUR") by decide,
    show ¬ ((2020 : ℤ) = 2021) by decide,
    show ¬ (("A" : String) = "B") by decide,
    show (pyIn ("Engineer") ("Engineer")) = true by decide,
    show (pyIn ("Engineer") ("Cook")) = false by decide]
  norm_num [dictSet, show ¬ (("A" : String) = "B") by decide,
    show ¬ ((2020 : ℤ) = 2021) by decide]

lemma c1_chunk1_eval : singleStatsFold ("Engineer") [vEng] =
    Except.ok
      { salaries_by_year := [(2020, ⟨150, 1, some 150⟩)]
        counts_by_year := [(2020, 1)]
        prof_salaries_by_year := [(2020, ⟨150, 1, some 150⟩)]
        prof_counts_by_year := [(2020, 1)]
        salaries_by_cities := [("A", ⟨150, 1, some 150⟩)]
        counts_by_cities := [("A", 1)]
        vacancies_count := 1 } := by
  simp only [singleStatsFold, foldlM_except_cons, foldlM_except_nil, updateStatistics_eq,
    vEng, mkVac, mkDt, initStats, changeSalaryAndCountStats, dictLookup, dictSet,
    List.find?, exchangeRates, AvgCounter.ofValues, AvgCounter.add,
    show (("AZN" : String) == "RUR") = false by decide,
    show (("BYR" : String) == "RUR") = false by decide,
    show (("EUR" : String) == "RUR") = false by decide,
    show (("GEL" : String) == "RUR") = false by decide,
    show (("KGS" : String) == "RUR") = false by decide,
    show (("KZT" : String) == "RUR") = false by decide,
    show (("RUR" : String) == "RUR") = true by decide,
    show (pyIn ("Engineer") ("Engineer")) = true by decide]
  norm_num

lemma c1_chunk2_eval : singleStatsFold ("Engineer") [vCook] =
    Except.ok
      { salaries_by_year := [(2021, ⟨50, 1, some 50⟩)]
        counts_by_year := [(2021, 1)]
        prof_salaries_by_year := []
        prof_counts_by_year := []
        salaries_by_cities := [("B", ⟨50, 1, some 50⟩)]
        counts_by_cities := [("B", 1)]
        vacancies_count := 1 } := by
  simp only [singleStatsFold, foldlM_except_cons, foldlM_except_nil, updateStatistics_eq,
    vCook, mkVac, mkDt, initStats, changeSalaryAndCountStats, dictLookup, dictSet,
    List.find?, exchangeRates, AvgCounter.ofValues, AvgCounter.add,
    show (("AZN" : String) == "RUR") = false by decide,
    show (("BYR" : String) == "RUR") = false by decide,
    show (("EUR" : String) == "RUR") = false by decide,
    show (("GEL" : String) == "RUR") = false by decide,
    show (("KGS" : String) == "RUR") = false by decide,
    show (("KZT" : String) == "RUR") = false by decide,
    show (("RUR" : String) == "RUR") = true by decide,
    show (pyIn ("Engineer") ("Cook")) = false by decide]
  norm_num

lemma c1_conc_eval (cy : ℤ) : concurrentStats ("Engineer") cy [[vEng], [vCook]] =
    Except.ok
      { salaries_by_year := [(2020, 150), (2021, 50)]
        counts_by_year := [(2020, 1), (2021, 1)]
        prof_salaries_by_year := dictSet [(2020, 150)] cy 0
        prof_counts_by_year := dictSet [(2020, 1)] cy 0
        avg_counters_by_cities := [("A", ⟨150, 1, some 150⟩), ("B", ⟨50, 1, some 50⟩)]
        vacancies_count := 2 } := by
  simp [concurrentStats, foldlM_except_cons, foldlM_except_nil,
    c1_chunk1_eval, c1_chunk2_eval, except_bind_ok, mergeChunk, mergeChunkCities,
    initCStats, dictUpdateAll, dictLookup, dictSet, List.find?, List.foldl,
    Stats.salariesByYearP, Stats.countsByYearP, Stats.profSalariesByYearP,
    Stats.profCountsByYearP, counterIntValue, pyInt, List.foldlM,
    show (("A" : String) == "B") = false by decide,
    show (("B" : String) == "A") = false by decide,
    show ((2020 : ℤ) == 2021) = false by decide,
    show ((2021 : ℤ) == 2020) = false by decide]
  norm_num [pyInt]

/-- C1: the futures variant is not equivalent to the sequential variant. On
the two-record corpus (one title matching the profession, published 2020;
one unrelated title, published 2021) partitioned into its two year chunks,
the merged prof_salaries_by_year differs from the sequential one for every
possible current year, because the 2021 chunk has no matching title and its
per-chunk substitute-for-empty sentinel (current_year maps to 0) leaks into
the merged map. -/
theorem concurrent_single_prof_salaries_diverge (cy : ℤ) :
    (concurrentStats ("Engineer") cy [[vEng], [vCook]]).map (CStats.profSalariesByYearP cy) ≠
    (singleStatsFold ("Engineer") [vEng, vCook]).map (Stats.profSalariesByYearP cy) := by
  rw [c1_conc_eval cy, c1_single_eval]
  rcases eq_or_ne cy 2020 with h | h
  · subst h
    simp only [Except.map, CStats.profSalariesByYearP, Stats.profSalariesByYearP, dictSet,
      counterIntValue, pyInt]
    norm_num
  · have hbe : ((2020 : ℤ) == cy) = false := beq_eq_false_iff_ne.mpr (Ne.symm h)
    simp [Except.map, CStats.profSalariesByYearP, Stats.profSalariesByYearP, dictSet, hbe,
      counterIntValue, pyInt, Ne.symm h]

lemma updateStatistics_ok_prof_no {prof : String} {st : Stats} {v : Vacancy} {st' : Stats}
    (hm : pyIn prof v.name = false) (h : updateStatistics prof st v = Except.ok st') :
    st'.prof_salaries_by_year = st.prof_salaries_by_year ∧
    st'.prof_counts_by_year = st.prof_counts_by_year := by
  rw [updateStatistics_eq] at h
  rcases hx : dictLookup exchangeRates v.salary.currency with _ | r <;> rw [hx] at h
  · exact absurd h (by simp)
  rcases hp : v.published_at with _ | dt <;> rw [hp] at h
  · exact absurd h (by simp)
  simp only [hm] at h
  rw [if_pos trivial] at h
  have h2 := (Except.ok.injEq _ _).mp h
  subst h2
  exact ⟨rfl, rfl⟩

lemma updateStatistics_ok_prof_yes {prof : String} {st : Stats} {v : Vacancy} {st' : Stats}
    (hm : pyIn prof v.name = true) (h : updateStatistics prof st v = Except.ok st') :
    ∃ dt cva n, v.published_at = some dt ∧
      st'.prof_salaries_by_year = dictSet st.prof_salaries_by_year dt.year cva ∧
      st'.prof_counts_by_year = dictSet st.prof_counts_by_year dt.year n := by
  rw [updateStatistics_eq] at h
  rcases hx : dictLookup exchangeRates v.salary.currency with _ | r <;> rw [hx] at h
  · exact absurd h (by simp)
  rcases hp : v.published_at with _ | dt <;> rw [hp] at h
  · exact absurd h (by simp)
  simp only [hm] at h
  rw [if_neg (by simp)] at h
  have h2 := (Except.ok.injEq _ _).mp h
  subst h2
  cases hlk : dictLookup st.prof_salaries_by_year dt.year with
  | none =>
    refine ⟨dt, AvgCounter.ofValues [((v.salary.from_amount : ℚ) + v.salary.to_amount) / 2 * r],
      1, rfl, ?_, ?_⟩ <;> simp [changeSalaryAndCountStats, hlk]
  | some c =>
    refine ⟨dt, c.add (((v.salary.from_amount : ℚ) + v.salary.to_amount) / 2 * r),
      (dictLookup st.prof_counts_by_year dt.year).getD 0 + 1, rfl, ?_, ?_⟩ <;>
      simp [changeSalaryAndCountStats, hlk]

lemma singleFold_prof_unchanged (prof : String) :
    ∀ (vs : List Vacancy) (st0 st' : Stats),
      (∀ v ∈ vs, pyIn prof v.name = false) →
      vs.foldlM (updateStatistics prof) st0 = Except.ok st' →
      st'.prof_salaries_by_year = st0.prof_salaries_by_year ∧
      st'.prof_counts_by_year = st0.prof_counts_by_year := by
  intro vs
  induction vs with
  | nil =>
    intro st0 st' _ h
    have h2 := (Except.ok.injEq _ _).mp h
    subst h2
    exact ⟨rfl, rfl⟩
  | cons v rest ih =>
    intro st0 st' hall h
    rw [foldlM_except_cons] at h
    cases hstep : updateStatistics prof st0 v <;> rw [hstep] at h
    · exact absurd h (by simp)
    case ok st1 =>
      have hv := updateStatistics_ok_prof_no (hall v (List.mem_cons_self v rest)) hstep
      have hrest := ih st1 st' (fun w hw => hall w (List.mem_cons_of_mem v hw)) h
      exact ⟨hrest.1.trans hv.1, hrest.2.trans hv.2⟩

lemma foldlM_prof_keys (prof : String) :
    ∀ (vs : List Vacancy) (st0 st' : Stats),
      vs.foldlM (updateStatistics prof) st0 = Except.ok st' →
      ∀ y : ℤ,
        ((dictLookup st'.prof_counts_by_year y).isSome ↔
          (dictLookup st0.prof_counts_by_year y).isSome ∨
          ∃ v ∈ vs, pyIn prof v.name = true ∧ v.published_at.map PyDatetime.year = some y) ∧
        ((dictLookup st'.prof_salaries_by_year y).isSome ↔
          (dictLookup st0.prof_salaries_by_year y).isSome ∨
          ∃ v ∈ vs, pyIn prof v.name = true ∧ v.published_at.map PyDatetime.year = some y) := by
  intro vs
  induction vs with
  | nil =>
    intro st0 st' h y
    have h2 := (Except.ok.injEq _ _).mp h
    subst h2
    simp
  | cons v rest ih =>
    intro st0 st' h y
    rw [foldlM_except_cons] at h
    cases hstep : updateStatistics prof st0 v <;> rw [hstep] at h
    · exact absurd h (by simp)
    case ok st1 =>
      have hy := ih st1 st' h y
      cases hm : pyIn prof v.name with
      | false =>
        obtain ⟨h1, h2⟩ := updateStatistics_ok_prof_no hm hstep
        constructor
        · rw [hy.1, h2]
          simp [hm]
        · rw [hy.2, h1]
          simp [hm]
      | true =>
        obtain ⟨dt, cva, n, hp, hsal, hcnt⟩ := updateStatistics_ok_prof_yes hm hstep
        constructor
        · rw [hy.1, hcnt, dictLookup_dictSet_isSome]
          simp only [hp, hm, List.mem_cons, Option.map_some]
          constructor
          · rintro ((rfl | hs) | hr)
            · exact Or.inr ⟨v, Or.inl rfl, hm, by rw [hp]; rfl⟩
            · exact Or.inl hs
            · obtain ⟨w, hw, hw2⟩ := hr
              exact Or.inr ⟨w, Or.inr hw, hw2⟩
          · rintro (hs | ⟨w, (rfl | hw), hwm, hwy⟩)
            · exact Or.inl (Or.inr hs)
            · rw [hp] at hwy
              simp at hwy
              exact Or.inl (Or.inl hwy.symm)
            · exact Or.inr ⟨w, hw, hwm, hwy⟩
        · rw [hy.2, hsal, dictLookup_dictSet_isSome]
          simp only [hp, hm, List.mem_cons, Option.map_some]
          constructor
          · rintro ((rfl | hs) | hr)
            · exact Or.inr ⟨v, Or.inl rfl, hm, by rw [hp]; rfl⟩
            · exact Or.inl hs
            · obtain ⟨w, hw, hw2⟩ := hr
              exact Or.inr ⟨w, Or.inr hw, hw2⟩
          · rintro (hs | ⟨w, (rfl | hw), hwm, hwy⟩)
            · exact Or.inl (Or.inr hs)
            · rw [hp] at hwy
              simp at hwy
              exact Or.inl (Or.inl hwy.symm)
            · exact Or.inr ⟨w, hw, hwm, hwy⟩

lemma mergeChunk_ok_prof {cy : ℤ} {acc : CStats} {st : Stats} {c : CStats}
    (h : mergeChunk cy acc st = Except.ok c) :
    c.prof_salaries_by_year =
      dictUpdateAll acc.prof_salaries_by_year (Stats.profSalariesByYearP cy st) ∧
    c.prof_counts_by_year =
      dictUpdateAll acc.prof_counts_by_year (Stats.profCountsByYearP cy st) := by
  unfold mergeChunk at h
  cases hc : mergeChunkCities (acc.avg_counters_by_cities, acc.vacancies_count)
      st.salaries_by_cities <;> rw [hc] at h
  · rw [except_bind_error] at h
    exact absurd h (by simp)
  · rw [except_bind_ok] at h
    have h2 := (Except.ok.injEq _ _).mp h
    subst h2
    exact ⟨rfl, rfl⟩

lemma concurrent_nomatch_prof (prof : String) (cy : ℤ) :
    ∀ (chunks : List (List Vacancy)) (acc : CStats) (c : CStats),
      (∀ chunk ∈ chunks, ∀ v ∈ chunk, pyIn prof v.name = false) →
      (chunks.foldlM
        (fun acc chunk => do
          let st ← singleStatsFold prof chunk
          mergeChunk cy acc st) acc) = Except.ok c →
      (acc.prof_salaries_by_year = [] ∨ acc.prof_salaries_by_year = [(cy, 0)]) →
      (acc.prof_counts_by_year = [] ∨ acc.prof_counts_by_year = [(cy, 0)]) →
      ((c.prof_salaries_by_year = [] ∨ c.prof_salaries_by_year = [(cy, 0)]) ∧
       (c.prof_counts_by_year = [] ∨ c.prof_counts_by_year = [(cy, 0)])) := by
  intro chunks
  induction chunks with
  | nil =>
    intro acc c _ h ha1 ha2
    have h2 := (Except.ok.injEq _ _).mp h
    subst h2
    exact ⟨ha1, ha2⟩
  | cons ch rest ih =>
    intro acc c hall h ha1 ha2
    rw [foldlM_except_cons] at h
    cases hstep : (do
        let st ← singleStatsFold prof ch
        mergeChunk cy acc st : Except PyErr CStats) <;> rw [hstep] at h
    · exact absurd h (by simp)
    case ok acc1 =>
      cases hst : singleStatsFold prof ch with
      | error e =>
        rw [hst, except_bind_error] at hstep
        exact absurd hstep (by simp)
      | ok st =>
        rw [hst, except_bind_ok] at hstep
        have hunch := singleFold_prof_unchanged prof ch initStats st
          (hall ch (List.mem_cons_self ch rest)) hst
        have hempty1 : st.prof_salaries_by_year = [] := hunch.1
        have hempty2 : st.prof_counts_by_year = [] := hunch.2
        have hps : Stats.profSalariesByYearP cy st = [(cy, 0)] := by
          simp [Stats.profSalariesByYearP, hempty1]
        have hpc : Stats.profCountsByYearP cy st = [(cy, 0)] := by
          simp [Stats.profCountsByYearP, hempty2]
        obtain ⟨hm1, hm2⟩ := mergeChunk_ok_prof hstep
        rw [hps, dictUpdateAll_single] at hm1
        rw [hpc, dictUpdateAll_single] at hm2
        have hinv1 : acc1.prof_salaries_by_year = [] ∨
            acc1.prof_salaries_by_year = [(cy, 0)] := by
          rcases ha1 with ha | ha <;> rw [ha] at hm1
          · exact Or.inr (by rw [hm1, dictSet_nil])
          · exact Or.inr (by rw [hm1, dictSet_single_self])
        have hinv2 : acc1.prof_counts_by_year = [] ∨
            acc1.prof_counts_by_year = [(cy, 0)] := by
          rcases ha2 with ha | ha <;> rw [ha] at hm2
          · exact Or.inr (by rw [hm2, dictSet_nil])
          · exact Or.inr (by rw [hm2, dictSet_single_self])
        exact ih acc1 c (fun chn hc => hall chn (List.mem_cons_of_mem ch hc)) h hinv1 hinv2

lemma progCook_eval : singleStatsFold ("Prog") [vCook] =
    Except.ok
      { salaries_by_year := [(2021, ⟨50, 1, some 50⟩)]
        counts_by_year := [(2021, 1)]
        prof_salaries_by_year := []
        prof_counts_by_year := []
        salaries_by_cities := [("B", ⟨50, 1, some 50⟩)]
        counts_by_cities := [("B", 1)]
        vacancies_count := 1 } := by
  simp only [singleStatsFold, foldlM_except_cons, foldlM_except_nil, updateStatistics_eq,
    vCook, mkVac, mkDt, initStats, changeSalaryAndCountStats, dictLookup, dictSet,
    List.find?, exchangeRates, AvgCounter.ofValues, AvgCounter.add,
    show (("AZN" : String) == "RUR") = false by decide,
    show (("BYR" : String) == "RUR") = false by decide,
    show (("EUR" : String) == "RUR") = false by decide,
    show (("GEL" : String) == "RUR") = false by decide,
    show (("KGS" : String) == "RUR") = false by decide,
    show (("KZT" : String) == "RUR") = false by decide,
    show (("RUR" : String) == "RUR") = true by decide,
    show (pyIn ("Prog") ("Cook")) = false by decide]
  norm_num

/-- C5 counterexample: on the corpus with an Engineer match in 2020 and a
non-matching 2021 record, partitioned by year, the futures variant (with
current year 1970) holds the key 1970 with value 0 in both merged profession
maps even though no matching record has that year, so the maps do not
contain exactly the years of matching records. -/
theorem prof_map_gains_foreign_year :
    ∃ c, concurrentStats ("Engineer") 1970 [[vEng], [vCook]] = Except.ok c ∧
      dictLookup c.prof_counts_by_year 1970 = some 0 ∧
      dictLookup c.prof_salaries_by_year 1970 = some 0 ∧
      ¬ (∃ v ∈ [vEng, vCook], pyIn ("Engineer") v.name = true ∧
          v.published_at.map PyDatetime.year = some 1970) := by
  refine ⟨_, c1_conc_eval 1970, ?_, ?_, ?_⟩
  · simp [dictSet, dictLookup, List.find?,
      show ((2020 : ℤ) == 1970) = false by decide,
      show ((1970 : ℤ) == 1970) = true by decide]
  · simp [dictSet, dictLookup, List.find?,
      show ((2020 : ℤ) == 1970) = false by decide,
      show ((1970 : ℤ) == 1970) = true by decide]
  · rintro ⟨v, hv, hm, hy⟩
    simp only [List.mem_cons, List.not_mem_nil, or_false] at hv
    rcases hv with rfl | rfl
    · simp [vEng, mkVac, mkDt] at hy
    · exact absurd hm (by decide)

/-- C5 (amended: the exactly-the-matching-years half restricted to the
single-process variant): when no record title contains the profession
substring, both the single-process and the futures statistics substitute
the current-year-to-zero sentinel for both profession maps; and for the
single-process statistics the profession maps hold a year exactly when some
matching record was published in that year (the futures variant may hold an
extra current-year entry leaked from chunks without matches). -/
theorem prof_sentinel_amended :
    (∀ (prof : String) (cy : ℤ) (vs : List Vacancy) (st : Stats),
      (∀ v ∈ vs, pyIn prof v.name = false) →
      singleStatsFold prof vs = Except.ok st →
      Stats.profSalariesByYearP cy st = [(cy, 0)] ∧
      Stats.profCountsByYearP cy st = [(cy, 0)]) ∧
    (∀ (prof : String) (cy : ℤ) (chunks : List (List Vacancy)) (c : CStats),
      (∀ chunk ∈ chunks, ∀ v ∈ chunk, pyIn prof v.name = false) →
      concurrentStats prof cy chunks = Except.ok c →
      CStats.profSalariesByYearP cy c = [(cy, 0)] ∧
      CStats.profCountsByYearP cy c = [(cy, 0)]) ∧
    (∀ (prof : String) (vs : List Vacancy) (st : Stats),
      singleStatsFold prof vs = Except.ok st →
      ∀ y : ℤ,
        ((dictLookup st.prof_counts_by_year y).isSome ↔
          ∃ v ∈ vs, pyIn prof v.name = true ∧ v.published_at.map PyDatetime.year = some y) ∧
        ((dictLookup st.prof_salaries_by_year y).isSome ↔
          ∃ v ∈ vs, pyIn prof v.name = true ∧ v.published_at.map PyDatetime.year = some y)) := by
  refine ⟨?_, ?_, ?_⟩
  · intro prof cy vs st hall h
    have hu := singleFold_prof_unchanged prof vs initStats st hall h
    constructor
    · simp [Stats.profSalariesByYearP, hu.1, initStats]
    · simp [Stats.profCountsByYearP, hu.2, initStats]
  · intro prof cy chunks c hall h
    have hin := concurrent_nomatch_prof prof cy chunks initCStats c hall h
      (Or.inl rfl) (Or.inl rfl)
    constructor
    · rcases hin.1 with hc | hc <;> simp [CStats.profSalariesByYearP, hc]
    · rcases hin.2 with hc | hc <;> simp [CStats.profCountsByYearP, hc]
  · intro prof vs st h y
    have hk := foldlM_prof_keys prof vs initStats st h y
    constructor
    · rw [hk.1]
      simp [initStats, dictLookup]
    · rw [hk.2]
      simp [initStats, dictLookup]

/-- C5 witness: the amended statement applied to a no-match corpus (both
variants, current year 5) and to the Engineer corpus at year 2020. -/
theorem prof_sentinel_amended_witness :
    (∃ st, singleStatsFold ("Prog") [vCook] = Except.ok st ∧
      Stats.profSalariesByYearP 5 st = [(5, 0)] ∧
      Stats.profCountsByYearP 5 st = [(5, 0)]) ∧
    (CStats.profSalariesByYearP 5 initCStats = [(5, 0)] ∧
      CStats.profCountsByYearP 5 initCStats = [(5, 0)]) ∧
    (∃ st, singleStatsFold ("Engineer") [vEng, vCook] = Except.ok st ∧
      ((dictLookup st.prof_counts_by_year 2020).isSome ↔
        ∃ v ∈ [vEng, vCook], pyIn ("Engineer") v.name = true ∧
          v.published_at.map PyDatetime.year = some 2020)) := by
  refine ⟨⟨_, progCook_eval, ?_⟩, ?_, ⟨_, c1_single_eval, ?_⟩⟩
  · exact prof_sentinel_amended.1 "Prog" 5 [vCook] _
      (by rintro v hv; simp only [List.mem_singleton] at hv; subst hv; decide) progCook_eval
  · exact prof_sentinel_amended.2.1 "Prog" 5 [] initCStats (by simp) rfl
  · exact (prof_sentinel_amended.2.2 "Engineer" [vEng, vCook] _ c1_single_eval 2020).1

/-- Sequential evaluation of the three-cities corpus: every record is a 2022
ruble vacancy of value 100, one per city, one title matching the profession. -/
lemma c9_single_eval : singleStatsFold ("Engineer") corpusThirds =
    Except.ok
      { salaries_by_year := [(2022, ⟨300, 3, some 100⟩)]
        counts_by_year := [(2022, 3)]
        prof_salaries_by_year := [(2022, ⟨100, 1, some 100⟩)]
        prof_counts_by_year := [(2022, 1)]
        salaries_by_cities :=
          [("A", ⟨100, 1, some 100⟩), ("B", ⟨100, 1, some 100⟩), ("C", ⟨100, 1, some 100⟩)]
        counts_by_cities := [("A", 1), ("B", 1), ("C", 1)]
        vacancies_count := 3 } := by
  simp only [singleStatsFold, foldlM_except_cons, foldlM_except_nil, updateStatistics_eq,
    corpusThirds, mkVac, mkDt, initStats, changeSalaryAndCountStats, dictLookup, dictSet,
    List.find?, exchangeRates, AvgCounter.ofValues, AvgCounter.add,
    show (("AZN" : String) == "RUR") = false by decide,
    show (("BYR" : String) == "RUR") = false by decide,
    show (("EUR" : String) == "RUR") = false by decide,
    show (("GEL" : String) == "RUR") = false by decide,
    show (("KGS" : String) == "RUR") = false by decide,
    show (("KZT" : String) == "RUR") = false by decide,
    show (("RUR" : String) == "RUR") = true by decide,
    show ((2022 : ℤ) == 2022) = true by decide,
    show (("A" : String) == "B") = false by decide,
    show (("A" : String) == "C") = false by decide,
    show (("B" : String) == "C") = false by decide,
    show (("B" : String) == "A") = false by decide,
    show (("C" : String) == "A") = false by decide,
    show (("C" : String) == "B") = false by decide,
    show (("A" : String) == "A") = true by decide,
    show (("B" : String) == "B") = true by decide,
    show (("C" : String) == "C") = true by decide,
    show (pyIn ("Engineer") ("Engineer")) = true by decide,
    show (pyIn ("Engineer") ("Builder")) = false by decide,
    show (pyIn ("Engineer") ("Cook")) = false by decide]
  norm_num [dictSet, show ¬ (("A" : String) = "B") by decide,
    show ¬ (("A" : String) = "C") by decide, show ¬ (("B" : String) = "C") by decide]

/-- The sequential top_10_cities_shares of that state: every city holds a
third of the rows and the share is rounded to four decimals. -/
lemma c9_shares_eval :
    Stats.top10CitiesSharesP
      { salaries_by_year := [(2022, ⟨300, 3, some 100⟩)]
        counts_by_year := [(2022, 3)]
        prof_salaries_by_year := [(2022, ⟨100, 1, some 100⟩)]
        prof_counts_by_year := [(2022, 1)]
        salaries_by_cities :=
          [("A", ⟨100, 1, some 100⟩), ("B", ⟨100, 1, some 100⟩), ("C", ⟨100, 1, some 100⟩)]
        counts_by_cities := [("A", 1), ("B", 1), ("C", 1)]
        vacancies_count := 3 } =
    [("A", pyRound4 ((1 : ℚ)/3)), ("B", pyRound4 ((1 : ℚ)/3)), ("C", pyRound4 ((1 : ℚ)/3))] := by
  simp [Stats.top10CitiesSharesP, onePercentFilter, sortByValueDesc, stableSort, stableInsert,
    dictLookup, List.find?, List.filter,
    show (("A" : String) == "A") = true by decide,
    show (("B" : String) == "B") = true by decide,
    show (("C" : String) == "C") = true by decide,
    decide_eq_true (show ((1 : ℕ) : ℚ) ≥ ((3 : ℕ) : ℚ) / 100 by norm_num),
    decide_eq_true (show ((3 : ℚ) / 100 ≤ 1) by norm_num),
    show ∀ q : ℚ, decide (q ≤ q) = true from fun q => decide_eq_true (le_refl q)]

/-- The columnar frame of the same corpus. -/
lemma c9_df : corpusThirds.map toPdRow =
    [{ name := "Engineer", area_name := "A", year := 2022, salary := some 100 },
     { name := "Builder", area_name := "B", year := 2022, salary := some 100 },
     { name := "Cook", area_name := "C", year := 2022, salary := some 100 }] := by
  simp [corpusThirds, toPdRow, mkVac, mkDt, uniteSalariesCell, dictLookup, exchangeRates,
    List.find?]


/-- The columnar top_10_cities_shares of the same frame: the shares are the
raw quotients, with no rounding applied. -/
lemma c9_pandas_eval :
    pandasTop10CitiesShares (corpusThirds.map toPdRow) =
    [("A", (1 : ℚ)/3), ("B", (1 : ℚ)/3), ("C", (1 : ℚ)/3)] := by
  rw [c9_df]
  simp [pandasTop10CitiesShares, pdDistinctCities, pdCitySize, sortByValueDesc, stableSort,
    stableInsert, List.filter, List.foldl, List.contains,
    show (("A" : String) == "B") = false by decide,
    show (("A" : String) == "C") = false by decide,
    show (("B" : String) == "C") = false by decide,
    show (("B" : String) == "A") = false by decide,
    show (("C" : String) == "A") = false by decide,
    show (("C" : String) == "B") = false by decide,
    show (("A" : String) == "A") = true by decide,
    show (("B" : String) == "B") = true by decide,
    show (("C" : String) == "C") = true by decide,
    decide_eq_true (show ((1 : ℕ) : ℚ) ≥ ((3 : ℕ) : ℚ) / 100 by norm_num),
    decide_eq_true (show ((3 : ℚ) / 100 ≤ 1) by norm_num)]

/-- One third is not representable in four decimals, so the rounded and the
raw share differ. -/
lemma pyRound4_third_ne : pyRound4 ((1 : ℚ)/3) ≠ (1 : ℚ)/3 := by
  intro h
  unfold pyRound4 at h
  set r := roundHalfEvenZ ((1 : ℚ)/3 * 10000) with hr
  have h3 : (r : ℚ) * 3 = 10000 := by
    field_simp at h
    linarith
  have h4 : (r * 3 : ℤ) = 10000 := by exact_mod_cast h3
  omega

/-- C9: the columnar (pandas-based) variant does not reproduce the row-based
results field for field. On the corpus of three one-record cities the
sequential top_10_cities_shares rounds each share to four decimals
(round(1/3, 4)) while the columnar variant (lines 555-560) divides the city
sizes by the total with no rounding, so the two maps differ at every city:
the claimed byte-identical rounding equality fails. -/
theorem pandas_shares_diverge_from_single :
    ∃ st, singleStatsFold ("Engineer") corpusThirds = Except.ok st ∧
      dictLookup (Stats.top10CitiesSharesP st) ("A") = some (pyRound4 ((1 : ℚ)/3)) ∧
      dictLookup (pandasTop10CitiesShares (corpusThirds.map toPdRow)) ("A") =
        some ((1 : ℚ)/3) ∧
      pyRound4 ((1 : ℚ)/3) ≠ (1 : ℚ)/3 ∧
      Stats.top10CitiesSharesP st ≠ pandasTop10CitiesShares (corpusThirds.map toPdRow) := by
  refine ⟨_, c9_single_eval, ?_, ?_, pyRound4_third_ne, ?_⟩
  · rw [c9_shares_eval]
    simp [dictLookup, List.find?]
  · rw [c9_pandas_eval]
    simp [dictLookup, List.find?]
  · rw [c9_shares_eval, c9_pandas_eval]
    intro h
    have h1 : pyRound4 ((1 : ℚ)/3) = (1 : ℚ)/3 := congrArg Prod.snd (List.head_eq_of_cons_eq h)
    exact pyRound4_third_ne h1
